import Mathlib

/-!
# Verification of the download admission & progress-tracking core of
# `youtube_bot.py` (YouTube-downloader-hsh)

Shallow embedding of the relevant parts of `src/youtube_bot.py`:

* `clean_filename` — filename sanitisation (source lines 87–93);
* the format-selection expression built inside
  `download_video_with_progress` (line 155) together with the `best → 2160`
  substitution made by `quality_callback` (line 463);
* the `yt_dlp.utils.DownloadError` classification branch of
  `download_video_with_progress` (lines 195–206);
* the produced-file resolution logic of `download_video_with_progress`
  (lines 178–193);
* `progress_callback` (lines 208–241), modelled as a pure function from the
  progress dictionary to an optional structured rendering;
* the handler-level state machine: the globals `processing_request`,
  `cancel_requested` and `current_tasks`, mutated by `youtube_handler`
  (lines 392–436), `quality_callback` (lines 438–511), `cancel_handler`
  (lines 379–390) and `cancel_callback` (lines 513–519).

Python-specific primitives (substring test `in`, `str.replace`,
`str.rsplit`, slicing `[:n]`) are reimplemented over `List Char` so that
every definition is executable and kernel-reducible.
-/

/-! ## Python string primitives -/

/-- `prefixEq pat l` is `true` iff `pat` is a (character-wise) prefix of `l`.
Used to implement Python's substring test and `str.replace`. -/
def prefixEq : List Char → List Char → Bool
  | [], _ => true
  | _ :: _, [] => false
  | p :: ps, c :: cs => p == c && prefixEq ps cs

/-- `containsSub pat l` is `true` iff `pat` occurs as a contiguous substring
of `l` — Python's `pat in l` on strings. -/
def containsSub (pat : List Char) : List Char → Bool
  | [] => pat.isEmpty
  | c :: cs => prefixEq pat (c :: cs) || containsSub pat cs

/-- Python `needle in hay` for strings. -/
def strContains (hay needle : String) : Bool :=
  containsSub needle.data hay.data

/-- Fuel-driven core of Python `str.replace`: replaces every leftmost
non-overlapping occurrence of `pat` (assumed non-empty) by `rep`, scanning
left to right and resuming after each replaced segment.  `fuel` bounds the
recursion; `fuel = s.length` is always enough since each step consumes at
least one character of `s`. -/
def replaceAll (pat rep : List Char) : Nat → List Char → List Char
  | _, [] => []
  | 0, s => s
  | fuel + 1, c :: cs =>
    if prefixEq pat (c :: cs) && !pat.isEmpty then
      rep ++ replaceAll pat rep fuel (cs.drop (pat.length - 1))
    else
      c :: replaceAll pat rep fuel cs

/-- Python `s.replace(pat, rep)` (for non-empty `pat`, the only use here). -/
def pyReplace (s pat rep : String) : String :=
  String.mk (replaceAll pat.data rep.data s.data.length s.data)

/-- Python slicing `s[:n]`. -/
def pyTruncate (s : String) (n : Nat) : String :=
  String.mk (s.data.take n)

/-- Python `s.rsplit('.', 1)[0]`: everything before the last `'.'`, or `s`
itself when `s` has no `'.'`. -/
def rsplitBase (s : String) : String :=
  match s.data.reverse.dropWhile (fun c => decide (c ≠ '.')) with
  | [] => s
  | _ :: rest => String.mk rest.reverse

/-! ## `clean_filename` (source lines 87–93)

```python
def clean_filename(filename):
    cleaned = re.sub(r'[<>:"/\\|?*]', '', filename)
    cleaned = cleaned[:100]
    return cleaned
``` -/

/-- The character class of the regex `[<>:"/\\|?*]`. -/
def unsafeChars : List Char := ['<', '>', ':', '"', '/', '\\', '|', '?', '*']

/-- `clean_filename`: remove every character of `unsafeChars`, then truncate
to 100 characters. -/
def clean_filename (filename : String) : String :=
  String.mk (((filename.data).filter (fun c => decide (c ∉ unsafeChars))).take 100)

/-! ## Format expression (source lines 155 and 463)

`download_video_with_progress` builds
`f'bestvideo[height<={resolution}]+bestaudio/best[height<={resolution}]'`
directly from its `resolution` argument; `quality_callback` passes
`quality if quality != 'best' else 2160` as that argument. -/

/-- The argument `quality_callback` passes for `resolution`
(line 463: `resolution=quality if quality != 'best' else 2160`). -/
def resolutionArg (quality : String) : String :=
  if quality = "best" then "2160" else quality

/-- The f-string of line 155, interpolating the resolution verbatim. -/
def formatExpression (resolution : String) : String :=
  "bestvideo[height<=" ++ resolution ++ "]+bestaudio/best[height<=" ++ resolution ++ "]"

/-! ## Engine-error classification (source lines 195–206)

```python
except yt_dlp.utils.DownloadError as e:
    error_msg = str(e)
    if "Private video" in error_msg: return False, "🔒 Private video - Login required"
    elif "Members-only" in error_msg: return False, "👥 Members-only video"
    elif "Sign in" in error_msg: return False, "🔑 Login required - Use /cookies to upload cookies"
    else: return False, f"Download error: {error_msg[:200]}"
``` -/

/-- The `(False, message)` pair returned by the `DownloadError` branch of
`download_video_with_progress`. -/
def classify_download_error (error_msg : String) : Bool × String :=
  if strContains error_msg "Private video" then
    (false, "🔒 Private video - Login required")
  else if strContains error_msg "Members-only" then
    (false, "👥 Members-only video")
  else if strContains error_msg "Sign in" then
    (false, "🔑 Login required - Use /cookies to upload cookies")
  else
    (false, "Download error: " ++ pyTruncate error_msg 200)

/-! ## Produced-file resolution (source lines 178–193)

```python
downloaded_file = ydl.prepare_filename(info)
final_file = downloaded_file.replace('.webm', '.mp4').replace('.mkv', '.mp4')
if not os.path.exists(final_file):
    for ext in ['.mp4', '.mkv', '.webm']:
        test_file = downloaded_file.rsplit('.', 1)[0] + ext
        if os.path.exists(test_file):
            final_file = test_file
            break
if os.path.exists(final_file): return True, final_file
else: return False, "Downloaded file not found"
```

The filesystem is modelled as the list `disk` of paths that exist. -/

/-- `downloaded_file.replace('.webm', '.mp4').replace('.mkv', '.mp4')`. -/
def normalized_path (downloaded_file : String) : String :=
  pyReplace (pyReplace downloaded_file ".webm" ".mp4") ".mkv" ".mp4"

/-- The fixed probe list `['.mp4', '.mkv', '.webm']` of line 184. -/
def altExts : List String := [".mp4", ".mkv", ".webm"]

/-- The `(success, payload)` pair computed from `downloaded_file` by lines
178–193, given the set of paths that exist on disk. -/
def find_output_file (downloaded_file : String) (disk : List String) : Bool × String :=
  let final0 := normalized_path downloaded_file
  let final_file :=
    if final0 ∈ disk then final0
    else
      match altExts.find? (fun ext => decide ((rsplitBase downloaded_file ++ ext) ∈ disk)) with
      | some ext => rsplitBase downloaded_file ++ ext
      | none => final0
  if final_file ∈ disk then (true, final_file) else (false, "Downloaded file not found")

/-! ## Progress rendering (source lines 208–241)

```python
async def progress_callback(d, chat_id, message_id):
    if d['status'] == 'downloading':
        try:
            total = d.get('total_bytes', 0) or d.get('total_bytes_estimate', 0)
            downloaded = d.get('downloaded_bytes', 0)
            speed = d.get('speed', 0)
            if total and downloaded:
                percentage = (downloaded / total) * 100
                bar_length = 10
                filled = int(bar_length * percentage // 100)
                bar = '▓' * filled + '░' * (bar_length - filled)
                progress_text = (... f"{speed/(1024*1024):.1f} MB/s" ...)
                await bot.edit_message_text(...)
```

The callback's effect on the chat is modelled structurally: `none` when the
body renders nothing (wrong status, or `total`/`downloaded` falsy), else the
numeric/textual content of the message it edits in.  Absent dictionary keys
are modelled by the Python defaults (`0`). -/

/-- The fields of the yt-dlp progress dictionary `d` that the callback
reads, with `0` standing for an absent key (the `d.get(…, 0)` default). -/
structure ProgressDict where
  status : String
  total_bytes : Nat
  total_bytes_estimate : Nat
  downloaded_bytes : Nat
  speed : Nat
  deriving Repr, DecidableEq

/-- `percentage = (downloaded / total) * 100` (exact rational arithmetic in
place of Python floats). -/
def pct (downloaded total : Nat) : ℚ :=
  (downloaded : ℚ) / (total : ℚ) * 100

/-- `filled = int(bar_length * percentage // 100)` with `bar_length = 10`. -/
def barFilled (downloaded total : Nat) : Nat :=
  (Int.floor ((10 : ℚ) * pct downloaded total / 100)).toNat

/-- `bar = '▓' * filled + '░' * (bar_length - filled)`; Python's negative
string repetition yields `''`, matching Nat subtraction. -/
def progressBar (downloaded total : Nat) : String :=
  String.mk (List.replicate (barFilled downloaded total) '▓'
    ++ List.replicate (10 - barFilled downloaded total) '░')

/-- The structured content of the progress message assembled by
`progress_callback`: the percentage, the bar, the raw byte counts, and the
speed — which the source scales by `1024*1024` and labels `MB/s`
unconditionally. -/
structure ProgressRender where
  percentage : ℚ
  bar : String
  downloadedBytes : Nat
  totalBytes : Nat
  speedScaled : ℚ
  speedUnit : String
  deriving Repr, DecidableEq

/-- `progress_callback`, as a pure function of the progress dictionary:
`some r` when the source edits a progress message with content `r`, `none`
when its guards make it render nothing. -/
def progress_callback (d : ProgressDict) : Option ProgressRender :=
  if d.status = "downloading" then
    let total := if d.total_bytes = 0 then d.total_bytes_estimate else d.total_bytes
    let downloaded := d.downloaded_bytes
    if total ≠ 0 ∧ downloaded ≠ 0 then
      some { percentage := pct downloaded total
             bar := progressBar downloaded total
             downloadedBytes := downloaded
             totalBytes := total
             speedScaled := (d.speed : ℚ) / (1024 * 1024)
             speedUnit := "MB/s" }
    else none
  else none

/-! ## Handler-level state machine (source lines 43–46, 379–436, 438–519)

The module globals:

```python
processing_request = False
cancel_requested = False
current_tasks = {}
```

`current_tasks` is modelled by the list of user ids it holds, and the
download directory by the list `disk` of paths that exist.  Each pyrogram
handler runs with no `await` between its reads and writes of these globals,
so handlers are modelled as atomic functions on this state. -/

/-- The module-level mutable state of `youtube_bot.py` that the claims
concern. -/
structure BotState where
  processing_request : Bool
  cancel_requested : Bool
  current_tasks : List Nat
  disk : List String
  deriving Repr, DecidableEq

/-- Replies `youtube_handler`, `cancel_handler` and `cancel_callback` send. -/
inductive Reply where
  /-- "⏳ Please wait, another download is in progress..." (line 398). -/
  | busyWait
  /-- "⚠️ You already have a download in progress" (line 406). -/
  | alreadyDownloading
  /-- The quality-selection inline keyboard (lines 414–431). -/
  | qualityKeyboard
  /-- "❌ Error: …" from `youtube_handler`'s `except` branch (line 434). -/
  | errorReply
  /-- "🛑 Download cancelled" (lines 388, 518). -/
  | downloadCancelled
  /-- "ℹ️ No active download to cancel" (line 390). -/
  | noActiveDownload
  deriving Repr, DecidableEq

/-- `youtube_handler` (lines 392–436).  `reply_raises` says whether the
`await message.reply_text(...)` inside the `try` raises, taking the
`except` branch of lines 433–436. -/
def youtube_handler (s : BotState) (user : Nat) (reply_raises : Bool) :
    BotState × Reply :=
  if s.processing_request then (s, Reply.busyWait)
  else if user ∈ s.current_tasks then (s, Reply.alreadyDownloading)
  else
    let s1 : BotState :=
      { s with processing_request := true, current_tasks := user :: s.current_tasks }
    if reply_raises then
      ({ s1 with processing_request := false,
                 current_tasks := s1.current_tasks.erase user }, Reply.errorReply)
    else (s1, Reply.qualityKeyboard)

/-- Outcome of the awaited `download_video_with_progress` call inside
`quality_callback`'s `try` block (line 461): a normal `(True, path)` or
`(False, message)` return, an `asyncio.CancelledError`, or any other
exception. -/
inductive DlOutcome where
  | ok (file : String)
  | fail (msg : String)
  | cancelled
  | raises (msg : String)
  deriving Repr, DecidableEq

/-- Outcome of the upload step (`client.send_video` and the rest of the
success branch, lines 470–497). -/
inductive UpOutcome where
  | ok
  | raises (msg : String)
  deriving Repr, DecidableEq

/-- Replies `quality_callback` leaves in the chat. -/
inductive CbReply where
  /-- `callback_query.answer("Invalid selection")` (line 447), via the
  early `return` that precedes the `try`. -/
  | invalidSelection
  /-- The `await callback_query.message.edit_text("⏳ Starting download…")`
  of line 453 raised; it sits before the `try`, so the exception escapes
  the handler. -/
  | raisedOut
  /-- Video sent and progress message deleted (lines 486–497). -/
  | uploaded
  /-- "❌ Download failed:\n…" (line 500). -/
  | downloadFailed (msg : String)
  /-- "🛑 Download cancelled by user" (line 503). -/
  | cancelledMsg
  /-- "❌ Error: …" with the text truncated to 200 characters (line 506). -/
  | errorMsg (msg : String)
  deriving Repr, DecidableEq

/-- Result of one `quality_callback` run: the final global state, the reply
left in the chat, and whether `client.send_video` was invoked at all. -/
structure CbResult where
  state : BotState
  reply : CbReply
  upload_attempted : Bool
  deriving Repr, DecidableEq

/-- `quality_callback` (lines 438–511).  `user` is the clicker's id,
`parts` is `callback_query.data.split('_')`, `edit_raises` says whether the
pre-`try` `edit_text` of line 453 raises, and `dl`/`up` are the outcomes of
the download and upload steps.  The `finally` block (lines 507–511) —
`processing_request = False; current_tasks.pop(user_id, None);
cancel_requested = False` — runs on every path through the `try`. -/
def quality_callback (s : BotState) (user : Nat) (parts : List String)
    (edit_raises : Bool) (dl : DlOutcome) (up : UpOutcome) : CbResult :=
  if parts.length < 3 then
    { state := s, reply := CbReply.invalidSelection, upload_attempted := false }
  else if edit_raises then
    { state := s, reply := CbReply.raisedOut, upload_attempted := false }
  else
    let fin : BotState → BotState := fun st =>
      { st with processing_request := false,
                current_tasks := st.current_tasks.erase user,
                cancel_requested := false }
    match dl with
    | DlOutcome.ok file =>
      if file ∈ s.disk then
        match up with
        | UpOutcome.ok =>
          { state := fin { s with disk := s.disk.erase file },
            reply := CbReply.uploaded, upload_attempted := true }
        | UpOutcome.raises m =>
          { state := fin s, reply := CbReply.errorMsg (pyTruncate m 200),
            upload_attempted := true }
      else
        { state := fin s, reply := CbReply.downloadFailed file, upload_attempted := false }
    | DlOutcome.fail m =>
      { state := fin s, reply := CbReply.downloadFailed m, upload_attempted := false }
    | DlOutcome.cancelled =>
      { state := fin s, reply := CbReply.cancelledMsg, upload_attempted := false }
    | DlOutcome.raises m =>
      { state := fin s, reply := CbReply.errorMsg (pyTruncate m 200),
        upload_attempted := false }

/-- `cancel_handler` (lines 379–390): sets `cancel_requested` and calls
`.cancel()` on the stored task handle (which mutates none of the modelled
state) when the user has an entry in `current_tasks`. -/
def cancel_handler (s : BotState) (user : Nat) : BotState × Reply :=
  if user ∈ s.current_tasks then
    ({ s with cancel_requested := true }, Reply.downloadCancelled)
  else (s, Reply.noActiveDownload)

/-- `cancel_callback` (lines 513–519): unconditionally sets
`cancel_requested`. -/
def cancel_callback (s : BotState) : BotState × Reply :=
  ({ s with cancel_requested := true }, Reply.downloadCancelled)

/-- The source `progress_callback` with the module state in scope: its body
(lines 208–241) references no module global other than the transport
object `bot`, so it neither reads nor writes any `BotState` field — in
particular it never consults `cancel_requested` — and every exception is
swallowed by its internal `try`/`except` blocks. -/
def progress_callback_full (s : BotState) (d : ProgressDict) :
    BotState × Option ProgressRender :=
  (s, progress_callback d)

/-- Folding a stream of YouTube-URL messages (with successful replies)
through `youtube_handler`. -/
def urlStep (s : BotState) (user : Nat) : BotState :=
  (youtube_handler s user false).1

/-! ## Example states used by witnesses and counterexamples -/

/-- The freshly started module state (lines 43–46). -/
def initState : BotState :=
  { processing_request := false, cancel_requested := false,
    current_tasks := [], disk := [] }

/-- A state mid-download for user `7`: busy, cancellation requested, the
produced file on disk. -/
def exCancelState : BotState :=
  { processing_request := true, cancel_requested := true,
    current_tasks := [7], disk := ["downloads/v.mp4"] }

/-- A progress dictionary for a half-done download at 1 MiB/s. -/
def exSample : ProgressDict :=
  { status := "downloading", total_bytes := 100, total_bytes_estimate := 0,
    downloaded_bytes := 50, speed := 1048576 }

/-! ## Helper lemmas -/

/-- Python slicing `s[:n]` yields at most `n` characters. -/
theorem pyTruncate_length_le (s : String) (n : Nat) : (pyTruncate s n).length ≤ n := by
  show (s.data.take n).length ≤ n
  exact List.length_take_le n s.data

/-- `youtube_handler` leaves a busy state untouched and replies busy. -/
theorem youtube_handler_busy (s : BotState) (u : Nat) (r : Bool)
    (hs : s.processing_request = true) : youtube_handler s u r = (s, Reply.busyWait) := by
  simp [youtube_handler, hs]

/-- Folding any stream of URL messages over a busy state changes nothing. -/
theorem foldl_urlStep_busy (s : BotState) (hs : s.processing_request = true) :
    ∀ evs : List Nat, evs.foldl urlStep s = s := by
  intro evs
  induction evs with
  | nil => rfl
  | cons e es ih =>
    have hstep : urlStep s e = s := by
      simp [urlStep, youtube_handler_busy s e false hs]
    rw [List.foldl_cons, hstep, ih]

/-! ## C10 — filename sanitisation -/

/-- C10: `clean_filename` returns a string of length at most 100 containing
none of the filesystem-unsafe characters `< > : " / \ | ? *`, and it is
idempotent. -/
theorem clean_filename_spec (s : String) :
    (clean_filename s).length ≤ 100 ∧
    (∀ c ∈ (clean_filename s).data, c ∉ unsafeChars) ∧
    clean_filename (clean_filename s) = clean_filename s := by
  refine ⟨?_, ?_, ?_⟩
  · show ((s.data.filter _).take 100).length ≤ 100
    exact List.length_take_le 100 _
  · intro c hc
    have hmem : c ∈ s.data.filter (fun c => decide (c ∉ unsafeChars)) :=
      List.mem_of_mem_take hc
    exact of_decide_eq_true (List.mem_filter.mp hmem).2
  · show String.mk ((((s.data.filter _).take 100).filter _).take 100) = _
    have hf : ((s.data.filter (fun c => decide (c ∉ unsafeChars))).take 100).filter
        (fun c => decide (c ∉ unsafeChars))
        = (s.data.filter (fun c => decide (c ∉ unsafeChars))).take 100 := by
      apply List.filter_eq_self.mpr
      intro a ha
      exact (List.mem_filter.mp (List.mem_of_mem_take ha)).2
    rw [hf, List.take_take, min_self]
    rfl

/-- C10 witness: a concrete sanitisation, with the unsafe character `<`
provably absent from the output. -/
theorem clean_filename_spec_witness :
    (clean_filename "a<b:c|d?e*").length ≤ 100 ∧
    '<' ∉ (clean_filename "a<b:c|d?e*").data ∧
    clean_filename (clean_filename "a<b:c|d?e*") = clean_filename "a<b:c|d?e*" := by
  have h := clean_filename_spec "a<b:c|d?e*"
  exact ⟨h.1, fun hm => (h.2.1 '<' hm) (by decide), h.2.2⟩

/-! ## C6 — resolution → format expression -/

/-- C6 counterexample: an unrecognized resolution string is interpolated
verbatim into the selection expression; it does **not** resolve to the 720p
expression (there is no fallback table in the source). -/
theorem format_fallback_counterexample :
    formatExpression (resolutionArg "999")
      = "bestvideo[height<=999]+bestaudio/best[height<=999]" ∧
    formatExpression (resolutionArg "999") ≠ formatExpression (resolutionArg "720") := by
  exact ⟨rfl, by decide⟩

/-- C6 (amended): every resolution string yields a non-empty selection
expression (height-capped best video plus best audio, merged); `"best"` is
replaced by `2160` by `quality_callback`, every other string — the numeric
enum members and unrecognized strings alike — is passed through verbatim,
with neither a 720p fallback nor an error. -/
theorem format_expression_amended (q : String) :
    0 < (formatExpression (resolutionArg q)).length ∧
    (q ≠ "best" → resolutionArg q = q) ∧
    resolutionArg "best" = "2160" ∧
    (∀ r ∈ ["144", "240", "360", "480", "720", "1080"], resolutionArg r = r) := by
  refine ⟨?_, ?_, rfl, by decide⟩
  · unfold formatExpression
    have h18 : "bestvideo[height<=".length = 18 := rfl
    simp [String.length_append, h18]
  · intro hq
    simp [resolutionArg, hq]

/-- C6 witness: the amended theorem at the unrecognized resolution `"999"`. -/
theorem format_expression_amended_witness :
    0 < (formatExpression (resolutionArg "999")).length ∧ resolutionArg "999" = "999" := by
  have h := format_expression_amended "999"
  exact ⟨h.1, h.2.1 (by decide)⟩

/-! ## C5 — engine-error classification -/

/-- C5 counterexample: the source matches the exact substring
`"Private video"` (capitalised, word order of yt-dlp's message), so an
engine error containing the claim's phrase `"video is private"` is
classified as a generic failure, not as PrivateVideo. -/
theorem error_classification_counterexample :
    strContains "This video is private" "video is private" = true ∧
    classify_download_error "This video is private"
      = (false, "Download error: This video is private") ∧
    (classify_download_error "This video is private").2
      ≠ "🔒 Private video - Login required" := by
  refine ⟨by decide, by decide, by decide⟩

/-- C5 (amended): classification is by the case-sensitive yt-dlp substrings
`"Private video"`, `"Members-only"` and `"Sign in"`, tried in that order;
the `"Sign in"` outcome instructs the caller to upload a cookies file; any
other engine error is reported as `Download error:` with the message
truncated to at most 200 characters. -/
theorem error_classification_amended (msg : String) :
    (strContains msg "Private video" = true →
      classify_download_error msg = (false, "🔒 Private video - Login required")) ∧
    (strContains msg "Private video" = false → strContains msg "Members-only" = true →
      classify_download_error msg = (false, "👥 Members-only video")) ∧
    (strContains msg "Private video" = false → strContains msg "Members-only" = false →
      strContains msg "Sign in" = true →
      classify_download_error msg
        = (false, "🔑 Login required - Use /cookies to upload cookies")) ∧
    (strContains msg "Private video" = false → strContains msg "Members-only" = false →
      strContains msg "Sign in" = false →
      classify_download_error msg = (false, "Download error: " ++ pyTruncate msg 200) ∧
      (pyTruncate msg 200).length ≤ 200) := by
  refine ⟨?_, ?_, ?_, ?_⟩
  · intro h1
    simp [classify_download_error, h1]
  · intro h1 h2
    simp [classify_download_error, h1, h2]
  · intro h1 h2 h3
    simp [classify_download_error, h1, h2, h3]
  · intro h1 h2 h3
    exact ⟨by simp [classify_download_error, h1, h2, h3], pyTruncate_length_le msg 200⟩

set_option maxRecDepth 8192 in
/-- C5 witness: the spec's 500-character generic-error scenario — the
reported detail is the 200-character truncation. -/
theorem error_classification_amended_witness :
    classify_download_error (String.mk (List.replicate 500 'e'))
      = (false, "Download error: " ++ pyTruncate (String.mk (List.replicate 500 'e')) 200) ∧
    (pyTruncate (String.mk (List.replicate 500 'e')) 200).length ≤ 200 :=
  (error_classification_amended (String.mk (List.replicate 500 'e'))).2.2.2
    (by decide) (by decide) (by decide)

/-! ## C7 — produced-file resolution -/

/-- C7: after the engine finishes, the expected path is the container-
normalized one (`.webm`/`.mkv` rewritten to `.mp4`); if it exists it is
returned; otherwise exactly the alternate extensions `.mp4`, `.mkv`,
`.webm` are probed at the same base path, the first existing probe is
returned as success, and `"Downloaded file not found"` is returned when no
probed path exists. -/
theorem find_output_file_spec (f : String) (disk : List String) :
    (normalized_path f ∈ disk → find_output_file f disk = (true, normalized_path f)) ∧
    (normalized_path f ∉ disk →
      ∀ ext, altExts.find? (fun e => decide ((rsplitBase f ++ e) ∈ disk)) = some ext →
        (rsplitBase f ++ ext) ∈ disk ∧
        find_output_file f disk = (true, rsplitBase f ++ ext)) ∧
    (normalized_path f ∉ disk → (∀ e ∈ altExts, (rsplitBase f ++ e) ∉ disk) →
      find_output_file f disk = (false, "Downloaded file not found")) := by
  refine ⟨?_, ?_, ?_⟩
  · intro h
    simp [find_output_file, h]
  · intro h ext hfind
    have hmem : (rsplitBase f ++ ext) ∈ disk := by
      have := List.find?_some hfind
      exact of_decide_eq_true this
    refine ⟨hmem, ?_⟩
    simp [find_output_file, h, hfind, hmem]
  · intro h hnone
    have hfind : altExts.find? (fun e => decide ((rsplitBase f ++ e) ∈ disk)) = none := by
      apply List.find?_eq_none.mpr
      intro e he
      simpa using hnone e he
    simp [find_output_file, h, hfind]

/-- C7 witness: a `.webm` template whose remuxed `.mp4` is missing but whose
`.mkv` sibling exists is recovered via the probe list. -/
theorem find_output_file_spec_witness :
    (rsplitBase "downloads/v.webm" ++ ".mkv") ∈ ["downloads/v.mkv"] ∧
    find_output_file "downloads/v.webm" ["downloads/v.mkv"]
      = (true, rsplitBase "downloads/v.webm" ++ ".mkv") :=
  (find_output_file_spec "downloads/v.webm" ["downloads/v.mkv"]).2.1
    (by decide) ".mkv" (by decide)

/-! ## C8 — progress-bar arithmetic -/

/-- A progress dictionary whose downloaded count overshoots the (estimated)
total: 200 bytes downloaded of an estimated 100. -/
def overshootSample : ProgressDict :=
  { status := "downloading", total_bytes := 100, total_bytes_estimate := 0,
    downloaded_bytes := 200, speed := 0 }

/-- A progress dictionary with no usable total. -/
def noTotalSample : ProgressDict :=
  { status := "downloading", total_bytes := 0, total_bytes_estimate := 0,
    downloaded_bytes := 5, speed := 500 }

/-- A progress dictionary downloading at 500 bytes/s with a known total. -/
def slowSample : ProgressDict :=
  { status := "downloading", total_bytes := 100, total_bytes_estimate := 0,
    downloaded_bytes := 50, speed := 500 }

/-- The floor value `⌊10 · pct/100⌋` of `barFilled` at `200/100` is 20. -/
theorem barFilled_200_100 : barFilled 200 100 = 20 := by
  have h : (⌊(10 : ℚ) * pct 200 100 / 100⌋ : ℤ) = 20 := by norm_num [pct]
  simp [barFilled, h]

/-- C8 counterexample: when the downloaded byte count exceeds the estimated
total, the percentage is **not** clamped (200 % here) and the rendered bar
is 20 characters long — twice the fixed bar width of 10 — and this is
exactly what `progress_callback` renders for `overshootSample`. -/
theorem progress_clamp_counterexample :
    pct 200 100 = 200 ∧
    ¬ pct 200 100 ≤ 100 ∧
    (progressBar 200 100).length = 20 ∧
    (progress_callback overshootSample).map (fun r => r.bar)
      = some (progressBar 200 100) := by
  refine ⟨by norm_num [pct], by norm_num [pct], ?_, ?_⟩
  · simp [progressBar, barFilled_200_100, String.length]
  · simp [progress_callback, overshootSample]

/-- C8 (amended): the percentage is the raw `downloaded/total·100`, not
clamped; the fill is `⌊barWidth · percentage/100⌋` as claimed; and whenever
`downloaded ≤ total` the percentage lies in `[0, 100]`, the fill is at most
10 and the rendered bar is exactly the fixed width 10 — the width bound
fails only in the unclamped overshoot case refuted above. -/
theorem progress_bar_amended (d t : Nat) (ht : 0 < t) (hdt : d ≤ t) :
    0 ≤ pct d t ∧ pct d t ≤ 100 ∧
    barFilled d t = (Int.floor ((10 : ℚ) * pct d t / 100)).toNat ∧
    barFilled d t ≤ 10 ∧
    (progressBar d t).length = 10 := by
  have h1 : (d : ℚ) / (t : ℚ) ≤ 1 := by
    rw [div_le_one (by exact_mod_cast ht)]
    exact_mod_cast hdt
  have hle : pct d t ≤ 100 := by
    unfold pct
    calc (d : ℚ) / t * 100 ≤ 1 * 100 := by
          apply mul_le_mul_of_nonneg_right h1; norm_num
      _ = 100 := by norm_num
  have hfill : barFilled d t ≤ 10 := by
    unfold barFilled
    have h2 : (10 : ℚ) * pct d t / 100 ≤ 10 := by
      unfold pct
      nlinarith [h1]
    have h3 : (⌊(10 : ℚ) * pct d t / 100⌋ : ℤ) ≤ 10 := by
      calc (⌊(10 : ℚ) * pct d t / 100⌋ : ℤ) ≤ ⌊(10 : ℚ)⌋ := Int.floor_le_floor h2
        _ = 10 := by norm_num
    omega
  refine ⟨by unfold pct; positivity, hle, rfl, hfill, ?_⟩
  show (List.replicate (barFilled d t) '▓' ++ List.replicate (10 - barFilled d t) '░').length = 10
  simp only [List.length_append, List.length_replicate]
  omega

/-- C8 witness: the amended theorem at the half-done sample `50/100`. -/
theorem progress_bar_amended_witness :
    0 ≤ pct 50 100 ∧ pct 50 100 ≤ 100 ∧
    barFilled 50 100 = (Int.floor ((10 : ℚ) * pct 50 100 / 100)).toNat ∧
    barFilled 50 100 ≤ 10 ∧
    (progressBar 50 100).length = 10 :=
  progress_bar_amended 50 100 (by decide) (by decide)

/-! ## C9 — indeterminate state and speed scaling -/

/-- C9 counterexample: with `bytesTotal` unavailable the callback renders
**nothing** (there is no "Calculating…" state in the source), and a 500 B/s
speed is still rendered on the MB/s scale — the source divides by `1024²`
and labels `MB/s` unconditionally, with no magnitude thresholds. -/
theorem progress_indeterminate_counterexample :
    progress_callback noTotalSample = none ∧
    (progress_callback slowSample).map (fun r => r.speedUnit) = some "MB/s" ∧
    (progress_callback slowSample).map (fun r => r.speedScaled)
      = some ((500 : ℚ) / (1024 * 1024)) := by
  refine ⟨?_, ?_, ?_⟩ <;> simp [progress_callback, noTotalSample, slowSample]

/-- C9 (amended): when the (possibly estimated) total or the downloaded
count is unavailable the callback produces no rendering at all, and every
rendering it does produce carries the speed scaled by `1024²` under the
label `MB/s`, regardless of magnitude. -/
theorem progress_render_amended (d : ProgressDict) :
    ((if d.total_bytes = 0 then d.total_bytes_estimate else d.total_bytes) = 0 →
      progress_callback d = none) ∧
    (d.downloaded_bytes = 0 → progress_callback d = none) ∧
    (∀ r, progress_callback d = some r →
      r.speedUnit = "MB/s" ∧ r.speedScaled = (d.speed : ℚ) / (1024 * 1024)) := by
  refine ⟨?_, ?_, ?_⟩
  · intro h
    simp [progress_callback, h]
  · intro h
    simp [progress_callback, h]
  · intro r hr
    simp only [progress_callback] at hr
    by_cases h1 : d.status = "downloading"
    · rw [if_pos h1] at hr
      by_cases h2 : ((if d.total_bytes = 0 then d.total_bytes_estimate
          else d.total_bytes) ≠ 0 ∧ d.downloaded_bytes ≠ 0)
      · rw [if_pos h2] at hr
        injection hr with h
        subst h
        exact ⟨rfl, rfl⟩
      · rw [if_neg h2] at hr
        cases hr
    · rw [if_neg h1] at hr
      cases hr

/-- C9 witness: the amended theorem applied to an unknown-total sample. -/
theorem progress_render_amended_witness :
    progress_callback noTotalSample = none :=
  (progress_render_amended noTotalSample).1 rfl

/-! ## C2 — admission gate: mutual exclusion and guaranteed release -/

/-- C2: while `processing_request` is set, every URL submission is rejected
with the busy reply and the state is untouched; after `quality_callback`
runs a session to completion — normal return, download failure,
`CancelledError`, or an unexpected exception from the download or the
upload — the flag is released by its `finally` block; and a subsequent URL
submission (by a user with no registered task) is admitted. -/
theorem admission_gate_exclusive_and_released (s : BotState) (u u' : Nat) (r : Bool)
    (parts : List String) (dl : DlOutcome) (up : UpOutcome) :
    (s.processing_request = true → youtube_handler s u r = (s, Reply.busyWait)) ∧
    (3 ≤ parts.length →
      (quality_callback s u parts false dl up).state.processing_request = false) ∧
    (3 ≤ parts.length →
      u' ∉ (quality_callback s u parts false dl up).state.current_tasks →
      (youtube_handler (quality_callback s u parts false dl up).state u' false).2
        = Reply.qualityKeyboard) := by
  have hrel : 3 ≤ parts.length →
      (quality_callback s u parts false dl up).state.processing_request = false := by
    intro h3
    have hn : ¬ parts.length < 3 := by omega
    cases dl with
    | ok file =>
      by_cases hf : file ∈ s.disk
      · cases up <;> simp [quality_callback, hn, hf]
      · simp [quality_callback, hn, hf]
    | fail m => simp [quality_callback, hn]
    | cancelled => simp [quality_callback, hn]
    | raises m => simp [quality_callback, hn]
  refine ⟨fun hs => youtube_handler_busy s u r hs, hrel, ?_⟩
  intro h3 hu'
  simp [youtube_handler, hrel h3, hu']

/-- C2 witness: in the busy state a URL is rejected; after the session
fails, the flag is down and a fresh user is offered the quality keyboard. -/
theorem admission_gate_exclusive_and_released_witness :
    youtube_handler exCancelState 7 false = (exCancelState, Reply.busyWait) ∧
    (quality_callback exCancelState 7 ["quality", "720", "u"] false
        (DlOutcome.fail "e") UpOutcome.ok).state.processing_request = false ∧
    (youtube_handler (quality_callback exCancelState 7 ["quality", "720", "u"] false
        (DlOutcome.fail "e") UpOutcome.ok).state 9 false).2 = Reply.qualityKeyboard := by
  have h := admission_gate_exclusive_and_released exCancelState 7 9 false
    ["quality", "720", "u"] (DlOutcome.fail "e") UpOutcome.ok
  exact ⟨h.1 rfl, h.2.1 (by decide), h.2.2 (by decide) (by decide)⟩

/-! ## C3 — the busy flag can leak and starve all users -/

/-- C3: a URL submission in an idle state claims the busy flag while only
sending the quality keyboard (no download starts in `youtube_handler`);
if the quality-selection callback never fires, no further event lowers the
flag — any stream of URL submissions leaves the state fixed and every one
of them, from any user, is rejected busy — and neither `cancel_handler`
nor `cancel_callback` ever touches `processing_request`. -/
theorem busy_flag_leak_trace (s0 : BotState) (u : Nat)
    (h0 : s0.processing_request = false) (hu : u ∉ s0.current_tasks) :
    ((youtube_handler s0 u false).1.processing_request = true ∧
     (youtube_handler s0 u false).2 = Reply.qualityKeyboard ∧
     (∀ evs : List Nat, evs.foldl urlStep (youtube_handler s0 u false).1
        = (youtube_handler s0 u false).1) ∧
     (∀ (v : Nat) (r : Bool),
        (youtube_handler (youtube_handler s0 u false).1 v r).2 = Reply.busyWait)) ∧
    (∀ (s : BotState) (v : Nat),
      (cancel_handler s v).1.processing_request = s.processing_request) ∧
    (∀ s : BotState, (cancel_callback s).1.processing_request = s.processing_request) := by
  have hadm : youtube_handler s0 u false
      = ({ s0 with processing_request := true, current_tasks := u :: s0.current_tasks },
         Reply.qualityKeyboard) := by
    simp [youtube_handler, h0, hu]
  refine ⟨⟨?_, ?_, ?_, ?_⟩, ?_, ?_⟩
  · rw [hadm]
  · rw [hadm]
  · intro evs
    apply foldl_urlStep_busy
    rw [hadm]
  · intro v r
    rw [youtube_handler_busy (youtube_handler s0 u false).1 v r (by rw [hadm])]
  · intro s v
    by_cases hv : v ∈ s.current_tasks <;> simp [cancel_handler, hv]
  · intro s
    simp [cancel_callback]

/-- C3 witness: from the fresh state, user 1's URL claims the flag; the
submissions 2, 3, 1 all bounce off unchanged and user 2 is told busy. -/
theorem busy_flag_leak_trace_witness :
    (youtube_handler initState 1 false).1.processing_request = true ∧
    [2, 3, 1].foldl urlStep (youtube_handler initState 1 false).1
      = (youtube_handler initState 1 false).1 ∧
    (youtube_handler (youtube_handler initState 1 false).1 2 false).2 = Reply.busyWait := by
  have h := busy_flag_leak_trace initState 1 rfl (by decide)
  exact ⟨h.1.1, h.1.2.2.1 [2, 3, 1], h.1.2.2.2 2 false⟩

/-! ## C1 — cancellation flag versus progress callback -/

/-- C1 counterexample: in a state with `cancel_requested` already set, the
next progress callback leaves the state unchanged and produces an ordinary
progress rendering — the source callback never consults the flag and has
no abort path — and the session then completes with the upload attempted
and delivered, not with a cancelled outcome. -/
theorem cancel_flag_ignored_counterexample :
    exCancelState.cancel_requested = true ∧
    (progress_callback_full exCancelState exSample).1 = exCancelState ∧
    (progress_callback exSample).isSome = true ∧
    (quality_callback exCancelState 7 ["quality", "720", "u"] false
        (DlOutcome.ok "downloads/v.mp4") UpOutcome.ok).upload_attempted = true ∧
    (quality_callback exCancelState 7 ["quality", "720", "u"] false
        (DlOutcome.ok "downloads/v.mp4") UpOutcome.ok).reply = CbReply.uploaded := by
  refine ⟨rfl, rfl, ?_, by decide, by decide⟩
  simp [progress_callback, exSample]

/-- C1 (amended): setting `cancel_requested` does not affect progress
callbacks — the callback is a function of the progress dictionary alone
and signals no termination; the flag is merely reset by `quality_callback`'s
`finally`.  No upload is attempted only when the surrounding task itself is
cancelled (`asyncio.CancelledError` observed by `quality_callback`), in
which case the cancelled message is reported and the gate is released. -/
theorem cancel_semantics_amended (s : BotState) (d : ProgressDict) (u : Nat)
    (parts : List String) (er : Bool) (up : UpOutcome) :
    progress_callback_full { s with cancel_requested := true } d
      = ({ s with cancel_requested := true }, progress_callback d) ∧
    (quality_callback s u parts er DlOutcome.cancelled up).upload_attempted = false ∧
    (3 ≤ parts.length → er = false →
      (quality_callback s u parts er DlOutcome.cancelled up).reply = CbReply.cancelledMsg ∧
      (quality_callback s u parts er DlOutcome.cancelled up).state.cancel_requested = false ∧
      (quality_callback s u parts er DlOutcome.cancelled up).state.processing_request
        = false) := by
  refine ⟨rfl, ?_, ?_⟩
  · by_cases h3 : parts.length < 3
    · simp [quality_callback, h3]
    · cases er <;> simp [quality_callback, h3]
  · intro h3 her
    subst her
    have hn : ¬ parts.length < 3 := by omega
    exact ⟨by simp [quality_callback, hn], by simp [quality_callback, hn],
      by simp [quality_callback, hn]⟩

/-- C1 witness: a cancelled session attempts no upload and reports the
cancelled message. -/
theorem cancel_semantics_amended_witness :
    (quality_callback exCancelState 7 ["quality", "720", "u"] false
        DlOutcome.cancelled UpOutcome.ok).upload_attempted = false ∧
    (quality_callback exCancelState 7 ["quality", "720", "u"] false
        DlOutcome.cancelled UpOutcome.ok).reply = CbReply.cancelledMsg := by
  have h := cancel_semantics_amended exCancelState exSample 7 ["quality", "720", "u"]
    false UpOutcome.ok
  exact ⟨h.2.1, (h.2.2 (by decide) rfl).1⟩

/-! ## C4 — temporary-file cleanup -/

/-- C4 counterexample: `os.remove(result)` sits after `client.send_video`
inside the `try`, so when the upload raises, the `except` branch reports
the error and the produced file is still on disk afterwards. -/
theorem cleanup_on_upload_failure_counterexample :
    "downloads/v.mp4" ∈ exCancelState.disk ∧
    (quality_callback exCancelState 7 ["quality", "720", "u"] false
        (DlOutcome.ok "downloads/v.mp4") (UpOutcome.raises "FloodWait")).reply
      = CbReply.errorMsg "FloodWait" ∧
    "downloads/v.mp4" ∈ (quality_callback exCancelState 7 ["quality", "720", "u"] false
        (DlOutcome.ok "downloads/v.mp4") (UpOutcome.raises "FloodWait")).state.disk := by
  refine ⟨by decide, by decide, by decide⟩

/-- C4 (amended): the temporary file is removed exactly on the successful
exit of the upload step; when the upload raises, the disk is left
unchanged and the file survives. -/
theorem cleanup_success_only (s : BotState) (u : Nat) (parts : List String)
    (file m : String) (h3 : 3 ≤ parts.length) (hnd : s.disk.Nodup) (hf : file ∈ s.disk) :
    ((quality_callback s u parts false (DlOutcome.ok file) UpOutcome.ok).state.disk
       = s.disk.erase file ∧
     file ∉ (quality_callback s u parts false (DlOutcome.ok file) UpOutcome.ok).state.disk ∧
     (quality_callback s u parts false (DlOutcome.ok file) UpOutcome.ok).reply
       = CbReply.uploaded) ∧
    ((quality_callback s u parts false (DlOutcome.ok file) (UpOutcome.raises m)).state.disk
       = s.disk ∧
     file ∈ (quality_callback s u parts false (DlOutcome.ok file)
       (UpOutcome.raises m)).state.disk) := by
  have hn : ¬ parts.length < 3 := by omega
  have hdisk : (quality_callback s u parts false (DlOutcome.ok file) UpOutcome.ok).state.disk
      = s.disk.erase file := by
    simp [quality_callback, hn, hf]
  refine ⟨⟨hdisk, ?_, by simp [quality_callback, hn, hf]⟩,
    by simp [quality_callback, hn, hf], by simp [quality_callback, hn, hf]⟩
  rw [hdisk]
  exact hnd.not_mem_erase

/-- C4 witness: the amended theorem at the concrete mid-download state. -/
theorem cleanup_success_only_witness :
    (quality_callback exCancelState 7 ["quality", "720", "u"] false
        (DlOutcome.ok "downloads/v.mp4") UpOutcome.ok).state.disk
      = exCancelState.disk.erase "downloads/v.mp4" ∧
    "downloads/v.mp4" ∉ (quality_callback exCancelState 7 ["quality", "720", "u"] false
        (DlOutcome.ok "downloads/v.mp4") UpOutcome.ok).state.disk := by
  have h := cleanup_success_only exCancelState 7 ["quality", "720", "u"]
    "downloads/v.mp4" "m" (by decide) (by decide) (by decide)
  exact ⟨h.1.1, h.1.2.1⟩
